import Mathlib

/-!
Verification of the account-lockout / login-attempt subsystem of a
Next.js + Supabase SaaS template.

The development shallowly embeds:
  - the `login_attempts` and `security_events` tables as lists of rows,
  - the Postgres function `is_account_locked` (supabase schema SQL),
  - the helpers of `utils/auth-security` (`checkAccountLockout`,
    `logLoginAttempt`, `clearFailedAttempts`, `getFailedAttemptsCount`,
    `checkSuspiciousIP`),
  - the helpers of `lib/security-monitoring` (`logSecurityEvent`,
    `detectSuspiciousActivity`),
  - the `POST` handler of `app/api/auth/secure-login/route.ts`.

Timestamps are modelled as integer milliseconds since the epoch
(`Date.now()`); the external store is modelled as explicit list-valued
state, with explicit flags for RPC / storage failures where the code
branches on them.
-/

namespace SecureSaaS

/-- 15 minutes in milliseconds, the lockout window (`15 * 60 * 1000`). -/
def WINDOW_MS : Int := 15 * 60 * 1000

/-- 60 minutes in milliseconds, the fan-out heuristics window. -/
def HOUR_MS : Int := 60 * 60 * 1000

/-- One row of the `login_attempts` table (schema SQL, section 2). -/
structure LoginAttempt where
  email : String
  ip_address : String
  user_agent : String
  successful : Bool
  attempted_at : Int
deriving Repr, DecidableEq

/--
The Postgres function `is_account_locked(user_email, user_ip)`:
counts rows of `login_attempts` with matching email and ip,
`successful = FALSE` and `attempted_at > NOW() - INTERVAL '15 minutes'`,
and returns whether that count is at least 5.
-/
def is_account_locked (login_attempts : List LoginAttempt)
    (user_email user_ip : String) (now : Int) : Bool :=
  let failed_attempts :=
    (login_attempts.filter (fun a =>
      a.email == user_email && a.ip_address == user_ip &&
      a.successful == false && decide (now - WINDOW_MS < a.attempted_at))).length
  decide (failed_attempts ≥ 5)

/-- Result shape of `checkAccountLockout` in `utils/auth-security`. -/
structure AccountLockoutResult where
  locked : Bool
  message : Option String := none
  remainingAttempts : Option Nat := none
deriving Repr, DecidableEq

/-- The fixed lockout message of `utils/auth-security.checkAccountLockout`. -/
def lockoutMessage : String :=
  "Account temporarily locked due to multiple failed login attempts. Please try again in 15 minutes."

/--
The inline `login_attempts` query of `utils/auth-security.checkAccountLockout`:
rows with matching email and ip, `successful = false`, and
`attempted_at ≥ now - 15 minutes` (PostgREST `gte`).
-/
def recentFailedForPair (login_attempts : List LoginAttempt)
    (email ipAddress : String) (now : Int) : List LoginAttempt :=
  login_attempts.filter (fun a =>
    a.email == email && a.ip_address == ipAddress &&
    a.successful == false && decide (now - WINDOW_MS ≤ a.attempted_at))

/--
`utils/auth-security.checkAccountLockout`: calls the `is_account_locked`
RPC; on an RPC error it logs and returns `locked: false`; if the RPC
reports locked it returns the fixed message; otherwise it counts the
pair's recent failures and reports `max(0, 5 - failedCount)` remaining
attempts.
-/
def checkAccountLockout (rpcError : Bool) (login_attempts : List LoginAttempt)
    (email ipAddress : String) (now : Int) : AccountLockoutResult :=
  if rpcError then { locked := false }
  else if is_account_locked login_attempts email ipAddress now then
    { locked := true, message := some lockoutMessage }
  else
    let failedCount := (recentFailedForPair login_attempts email ipAddress now).length
    { locked := false, remainingAttempts := some (max 0 (5 - failedCount)) }

/-- A failed attempt for the pair strictly inside the trailing window
(the SQL function's filter, written as a proposition). -/
def FailedInStrictWindow (email ipAddress : String) (now : Int)
    (a : LoginAttempt) : Prop :=
  a.email = email ∧ a.ip_address = ipAddress ∧ a.successful = false ∧
    now - WINDOW_MS < a.attempted_at

/-- A failed attempt for the pair inside the closed trailing window
(the PostgREST `gte` filter, written as a proposition). -/
def FailedInClosedWindow (email ipAddress : String) (now : Int)
    (a : LoginAttempt) : Prop :=
  a.email = email ∧ a.ip_address = ipAddress ∧ a.successful = false ∧
    now - WINDOW_MS ≤ a.attempted_at

instance (email ipAddress : String) (now : Int) (a : LoginAttempt) :
    Decidable (FailedInStrictWindow email ipAddress now a) := by
  unfold FailedInStrictWindow
  infer_instance

instance (email ipAddress : String) (now : Int) (a : LoginAttempt) :
    Decidable (FailedInClosedWindow email ipAddress now a) := by
  unfold FailedInClosedWindow
  infer_instance

/-- Number of the pair's failed attempts strictly inside the window. -/
def strictWindowFailureCount (rows : List LoginAttempt)
    (email ipAddress : String) (now : Int) : Nat :=
  rows.countP (fun a => decide (FailedInStrictWindow email ipAddress now a))

/-- Number of the pair's failed attempts in the closed window. -/
def closedWindowFailureCount (rows : List LoginAttempt)
    (email ipAddress : String) (now : Int) : Nat :=
  rows.countP (fun a => decide (FailedInClosedWindow email ipAddress now a))

/--
`utils/auth-security.clearFailedAttempts`: deletes the rows of
`login_attempts` with matching email and ip and `successful = false`
(the remaining rows are kept).
-/
def clearFailedAttempts (rows : List LoginAttempt)
    (email ipAddress : String) : List LoginAttempt :=
  rows.filter (fun a =>
    !(a.email == email && a.ip_address == ipAddress && a.successful == false))

/-- Argument record of `utils/auth-security.logLoginAttempt`. -/
structure LoginAttemptData where
  email : String
  ipAddress : String
  userAgent : String
  successful : Bool
deriving Repr, DecidableEq

/-- The underlying store's insert: succeeds and appends the row, or
fails (store unreachable / storage error), modelled by the flag. -/
def insertLoginAttempt (storeFails : Bool) (rows : List LoginAttempt)
    (d : LoginAttemptData) (now : Int) : Except String (List LoginAttempt) :=
  if storeFails then Except.error "storage unavailable"
  else Except.ok (rows ++
    [{ email := d.email, ip_address := d.ipAddress, user_agent := d.userAgent,
       successful := d.successful, attempted_at := now }])

/--
`utils/auth-security.logLoginAttempt`: the insert is wrapped in
try/catch; a storage error is logged to the console and swallowed, so
the function resolves normally either way (an `Except.error` result
would model an exception escaping to the caller).
-/
def logLoginAttempt (storeFails : Bool) (rows : List LoginAttempt)
    (d : LoginAttemptData) (now : Int) : Except String (List LoginAttempt) :=
  match insertLoginAttempt storeFails rows d now with
  | Except.ok updated => Except.ok updated
  | Except.error _ => Except.ok rows

/-- Response of a PostgREST `select` issued with count `exact` and
head `true`: the request is a HEAD request, so no rows are returned
(`data` is null) and the matching-row count is in the `count` field. -/
structure HeadCountResponse where
  data : Option (List LoginAttempt)
  count : Nat
deriving Repr, DecidableEq

/-- The query of `utils/auth-security.getFailedAttemptsCount`:
failed rows for the pair with `attempted_at ≥ now - windowMinutes`,
requested with count `exact` and head `true`. -/
def selectFailedCountHead (rows : List LoginAttempt)
    (email ipAddress : String) (windowMinutes : Nat) (now : Int) :
    HeadCountResponse :=
  { data := none,
    count := (rows.filter (fun a =>
      a.email == email && a.ip_address == ipAddress &&
      a.successful == false &&
      decide (now - (windowMinutes : Int) * 60 * 1000 ≤ a.attempted_at))).length }

/--
`utils/auth-security.getFailedAttemptsCount`: issues the head-count
query and returns `data?.length || 0` — it reads the `data` field of
the response, not its `count` field.
-/
def getFailedAttemptsCount (rows : List LoginAttempt)
    (email ipAddress : String) (windowMinutes : Nat) (now : Int) : Nat :=
  let r := selectFailedCountHead rows email ipAddress windowMinutes now
  match r.data with
  | some d => d.length
  | none => 0

/-- The `SecurityEventType` enumeration of `lib/security-monitoring`. -/
inductive SecurityEventType where
  | login_success
  | login_failure
  | account_locked
  | password_reset
  | password_change
  | mfa_enabled
  | mfa_disabled
  | suspicious_activity
  | data_export
  | data_deletion
  | payment_change
  | subscription_created
  | subscription_cancelled
  | api_key_created
  | api_key_revoked
  | unauthorized_access
  | rate_limit_exceeded
deriving Repr, DecidableEq

/-- One row of the `security_events` table. The JSON metadata payload
is modelled as a list of key-value pairs. -/
structure SecurityEvent where
  user_id : Option String
  event_type : SecurityEventType
  metadata : List (String × String)
  ip_address : String
  user_agent : String
  created_at : Int
deriving Repr, DecidableEq

/-- The two append-only tables of the durable store. -/
structure Store where
  login_attempts : List LoginAttempt
  security_events : List SecurityEvent
deriving Repr, DecidableEq

/--
`lib/security-monitoring.logSecurityEvent`: appends a `security_events`
row (the try/catch around the insert swallows storage errors; the store
is modelled as available here — write-failure behavior is modelled
separately for the ledger in `logLoginAttempt`).
-/
def logSecurityEvent (userId : Option String) (eventType : SecurityEventType)
    (metadata : List (String × String)) (ipAddress userAgent : String)
    (now : Int) (s : Store) : Store :=
  { s with security_events := s.security_events ++
      [{ user_id := userId, event_type := eventType, metadata := metadata,
         ip_address := ipAddress, user_agent := userAgent, created_at := now }] }

/-- Result shape of `lib/security-monitoring.detectSuspiciousActivity`. -/
structure SuspiciousActivityResult where
  suspicious : Bool
  reason : Option String := none
deriving Repr, DecidableEq

/--
`lib/security-monitoring.detectSuspiciousActivity`: first counts the
subject's `login_failure` events in the trailing 15 minutes (≥ 5 →
suspicious, multiple failed login attempts); otherwise collects the
subject's events of the trailing 60 minutes and takes the set of their
IPs (> 3 → suspicious, multiple IP addresses); otherwise not suspicious.
-/
def detectSuspiciousActivity (events : List SecurityEvent)
    (userId : String) (now : Int) : SuspiciousActivityResult :=
  let failedLogins := events.filter (fun e =>
    e.user_id == some userId &&
    e.event_type == SecurityEventType.login_failure &&
    decide (now - WINDOW_MS ≤ e.created_at))
  if failedLogins.length ≥ 5 then
    { suspicious := true, reason := some "Multiple failed login attempts" }
  else
    let recentEvents := events.filter (fun e =>
      e.user_id == some userId && decide (now - HOUR_MS ≤ e.created_at))
    let uniqueIps := (recentEvents.map (fun e => e.ip_address)).dedup
    if uniqueIps.length > 3 then
      { suspicious := true, reason := some "Multiple IP addresses in short time" }
    else
      { suspicious := false }

/-- A `login_failure` event of the subject in the trailing 15 minutes. -/
def FailureEventFor (userId : String) (now : Int) (e : SecurityEvent) : Prop :=
  e.user_id = some userId ∧ e.event_type = SecurityEventType.login_failure ∧
    now - WINDOW_MS ≤ e.created_at

instance (userId : String) (now : Int) (e : SecurityEvent) :
    Decidable (FailureEventFor userId now e) := by
  unfold FailureEventFor
  infer_instance

/-- Any event of the subject in the trailing 60 minutes. -/
def RecentEventFor (userId : String) (now : Int) (e : SecurityEvent) : Prop :=
  e.user_id = some userId ∧ now - HOUR_MS ≤ e.created_at

instance (userId : String) (now : Int) (e : SecurityEvent) :
    Decidable (RecentEventFor userId now e) := by
  unfold RecentEventFor
  infer_instance

/-- Number of the subject's `login_failure` events in the window. -/
def failureEventCount (events : List SecurityEvent)
    (userId : String) (now : Int) : Nat :=
  events.countP (fun e => decide (FailureEventFor userId now e))

/-- Number of distinct origin IPs over the subject's events of the
trailing 60 minutes. -/
def distinctRecentIpCount (events : List SecurityEvent)
    (userId : String) (now : Int) : Nat :=
  ((events.filter (fun e => decide (RecentEventFor userId now e))).map
    (fun e => e.ip_address)).toFinset.card

/--
`utils/auth-security.checkSuspiciousIP`: selects the emails of the IP's
failed attempts of the trailing 60 minutes and reports whether the set
of those emails has more than 10 members. Modelled state-passing over
the whole store to record that the check writes nothing.
-/
def checkSuspiciousIP (s : Store) (ipAddress : String) (now : Int) :
    Bool × Store :=
  let data := (s.login_attempts.filter (fun a =>
    a.ip_address == ipAddress && a.successful == false &&
    decide (now - HOUR_MS ≤ a.attempted_at))).map (fun a => a.email)
  let uniqueEmails := data.dedup
  (decide (uniqueEmails.length > 10), s)

/-- A failed attempt from the IP in the trailing 60 minutes. -/
def FailedFromIpInHour (ipAddress : String) (now : Int)
    (a : LoginAttempt) : Prop :=
  a.ip_address = ipAddress ∧ a.successful = false ∧
    now - HOUR_MS ≤ a.attempted_at

instance (ipAddress : String) (now : Int) (a : LoginAttempt) :
    Decidable (FailedFromIpInHour ipAddress now a) := by
  unfold FailedFromIpInHour
  infer_instance

/-- Number of distinct identities the IP has failed attempts against
within the trailing 60 minutes. -/
def distinctTargetedIdentities (rows : List LoginAttempt)
    (ipAddress : String) (now : Int) : Nat :=
  ((rows.filter (fun a => decide (FailedFromIpInHour ipAddress now a))).map
    (fun a => a.email)).toFinset.card

/-- Result of the secure-login route's local `checkAccountLockout`. -/
structure RouteLockoutResult where
  locked : Bool
  message : Option String := none
deriving Repr, DecidableEq

/-- The fixed lockout message of the secure-login route. -/
def routeLockoutMessage : String :=
  "Account temporarily locked due to multiple failed attempts. Try again in 15 minutes."

/--
The secure-login route's local `checkAccountLockout`: it calls the
`is_account_locked` RPC and treats an RPC error the same as a locked
verdict (`if (error || data === true)`), returning the fixed message.
-/
def route_checkAccountLockout (rpcError : Bool)
    (rows : List LoginAttempt) (email ipAddress : String) (now : Int) :
    RouteLockoutResult :=
  if rpcError || is_account_locked rows email ipAddress now then
    { locked := true, message := some routeLockoutMessage }
  else
    { locked := false }

/-- Outcome of `supabase.auth.signInWithPassword`: a verdict (user on
success, an error object on failure) or a thrown exception. -/
inductive ProviderResult where
  | ok (userId : String)
  | authError (message : String)
  | thrown
deriving Repr, DecidableEq

/-- `!error` of the provider response: whether a verdict was success. -/
def providerSucceeded : ProviderResult → Bool
  | ProviderResult.ok _ => true
  | ProviderResult.authError _ => false
  | ProviderResult.thrown => false

/-- The external collaborators' behavior for one request: the rate
limiter's decision, the lockout RPC's error flag, and the provider. -/
structure RouteEnv where
  rateDenied : Bool
  rpcError : Bool
  provider : ProviderResult
deriving Repr, DecidableEq

/-- The parsed request: credentials plus forwarded client metadata. -/
structure LoginRequest where
  email : String
  password : String
  ipAddress : String
  userAgent : String
deriving Repr, DecidableEq

/-- The JSON response of the route, reduced to the fields the claims
mention. -/
structure RouteResponse where
  status : Nat
  error : Option String := none
  success : Bool := false
  userId : Option String := none
deriving Repr, DecidableEq

/-- The secure-login route's local `logLoginAttempt`: inserts the row
(PostgREST reports storage errors as values, so the call resolves; the
store is modelled as available). -/
def route_logLoginAttempt (email ipAddress : String) (successful : Bool)
    (userAgent : String) (now : Int) (s : Store) : Store :=
  { s with login_attempts := s.login_attempts ++
      [{ email := email, ip_address := ipAddress, user_agent := userAgent,
         successful := successful, attempted_at := now }] }

/--
The `POST` handler of `app/api/auth/secure-login/route.ts`:
rate check, body validation, lockout check (logging an
`account_locked` event and returning 429 when locked), provider
sign-in, `logLoginAttempt` with the provider's verdict, then the
failure (401) or success (200) event and response; a thrown provider
error lands in the catch block, which logs a `login_failure` event
with null subject and returns 500.
-/
def POST (env : RouteEnv) (req : LoginRequest) (now : Int) (s : Store) :
    RouteResponse × Store :=
  if env.rateDenied then
    ({ status := 429,
       error := some "Too many login attempts. Please try again later." }, s)
  else if req.email == "" || req.password == "" then
    ({ status := 400, error := some "Email and password are required" }, s)
  else
    let lockout := route_checkAccountLockout env.rpcError s.login_attempts
      req.email req.ipAddress now
    if lockout.locked then
      let s1 := logSecurityEvent none SecurityEventType.account_locked
        [("email", req.email), ("reason", "Too many failed attempts")]
        req.ipAddress req.userAgent now s
      ({ status := 429, error := lockout.message }, s1)
    else
      match env.provider with
      | ProviderResult.thrown =>
        let s1 := logSecurityEvent none SecurityEventType.login_failure
          [("error", "Internal error during login")]
          req.ipAddress req.userAgent now s
        ({ status := 500, error := some "An error occurred during login" }, s1)
      | ProviderResult.authError msg =>
        let s1 := route_logLoginAttempt req.email req.ipAddress false
          req.userAgent now s
        let s2 := logSecurityEvent none SecurityEventType.login_failure
          [("email", req.email), ("reason", msg)]
          req.ipAddress req.userAgent now s1
        ({ status := 401, error := some "Invalid email or password" }, s2)
      | ProviderResult.ok userId =>
        let s1 := route_logLoginAttempt req.email req.ipAddress true
          req.userAgent now s
        let s2 := logSecurityEvent (some userId) SecurityEventType.login_success
          [("method", "password"), ("mfa_used", "false")]
          req.ipAddress req.userAgent now s1
        ({ status := 200, success := true, userId := some userId }, s2)

/-- A concrete failed attempt used by concrete evaluations. -/
def cFail (t : Int) : LoginAttempt :=
  { email := "alice@example.com", ip_address := "1.2.3.4",
    user_agent := "ua", successful := false, attempted_at := t }

/-- A concrete store holding three recent failures for the pair
`alice@example.com` / `1.2.3.4`. -/
def cStore3 : Store :=
  { login_attempts := [cFail 0, cFail 1000, cFail 2000],
    security_events := [] }

/-- A concrete request by `alice@example.com` from `1.2.3.4`. -/
def cReq : LoginRequest :=
  { email := "alice@example.com", password := "pw",
    ipAddress := "1.2.3.4", userAgent := "ua" }

/-- A concrete environment: rate check passes, the lockout RPC works,
the provider accepts the credential. -/
def cEnvOk : RouteEnv :=
  { rateDenied := false, rpcError := false,
    provider := ProviderResult.ok "user-1" }

/-- A concrete store holding five recent failures for the pair. -/
def cStore5 : Store :=
  { login_attempts := [cFail 0, cFail 1000, cFail 2000, cFail 3000, cFail 4000],
    security_events := [] }

/-- A concrete environment where the lockout RPC reports an error. -/
def cEnvRpcErr : RouteEnv :=
  { rateDenied := false, rpcError := true,
    provider := ProviderResult.ok "user-1" }

/-- Four fresh concrete failures for the pair. -/
def cNew4 : List LoginAttempt :=
  [cFail 5000, cFail 6000, cFail 7000, cFail 8000]

theorem strict_filter_eq (email ipAddress : String) (now : Int)
    (a : LoginAttempt) :
    (a.email == email && a.ip_address == ipAddress &&
      a.successful == false && decide (now - WINDOW_MS < a.attempted_at)) =
    decide (FailedInStrictWindow email ipAddress now a) := by
  rw [Bool.eq_iff_iff]
  simp [FailedInStrictWindow, and_assoc]

theorem closed_filter_eq (email ipAddress : String) (now : Int)
    (a : LoginAttempt) :
    (a.email == email && a.ip_address == ipAddress &&
      a.successful == false && decide (now - WINDOW_MS ≤ a.attempted_at)) =
    decide (FailedInClosedWindow email ipAddress now a) := by
  rw [Bool.eq_iff_iff]
  simp [FailedInClosedWindow, and_assoc]

theorem is_account_locked_eq_count (rows : List LoginAttempt)
    (email ipAddress : String) (now : Int) :
    is_account_locked rows email ipAddress now =
      decide (5 ≤ strictWindowFailureCount rows email ipAddress now) := by
  have hp : (fun a : LoginAttempt =>
      a.email == email && a.ip_address == ipAddress &&
      a.successful == false && decide (now - WINDOW_MS < a.attempted_at)) =
      (fun a => decide (FailedInStrictWindow email ipAddress now a)) := by
    funext a
    exact strict_filter_eq email ipAddress now a
  simp only [is_account_locked, strictWindowFailureCount,
    List.countP_eq_length_filter, ge_iff_le, hp]

theorem recentFailedForPair_length (rows : List LoginAttempt)
    (email ipAddress : String) (now : Int) :
    (recentFailedForPair rows email ipAddress now).length =
      closedWindowFailureCount rows email ipAddress now := by
  have hp : (fun a : LoginAttempt =>
      a.email == email && a.ip_address == ipAddress &&
      a.successful == false && decide (now - WINDOW_MS ≤ a.attempted_at)) =
      (fun a => decide (FailedInClosedWindow email ipAddress now a)) := by
    funext a
    exact closed_filter_eq email ipAddress now a
  simp only [recentFailedForPair, closedWindowFailureCount,
    List.countP_eq_length_filter, hp]

theorem checkAccountLockout_locked_eq (rows : List LoginAttempt)
    (email ipAddress : String) (now : Int) :
    (checkAccountLockout false rows email ipAddress now).locked =
      is_account_locked rows email ipAddress now := by
  rw [checkAccountLockout]
  cases hb : is_account_locked rows email ipAddress now <;> simp [hb]

/-- C1: the lockout evaluations (`is_account_locked` and, absent an RPC
error, `checkAccountLockout`) report locked exactly when at least 5
failed attempts for precisely the `(identity, originIp)` pair lie in the
trailing 15-minute window; failures of the same identity from another
origin IP are outside the counted set. -/
theorem lockout_iff_five_pair_failures (rows : List LoginAttempt)
    (email ipAddress : String) (now : Int) :
    (is_account_locked rows email ipAddress now = true ↔
      5 ≤ strictWindowFailureCount rows email ipAddress now) ∧
    ((checkAccountLockout false rows email ipAddress now).locked = true ↔
      5 ≤ strictWindowFailureCount rows email ipAddress now) := by
  constructor
  · rw [is_account_locked_eq_count]
    exact decide_eq_true_iff
  · rw [checkAccountLockout_locked_eq, is_account_locked_eq_count]
    exact decide_eq_true_iff

/-- C7: when the pair's failed-attempt count in the trailing 15-minute
window is below the threshold of 5, `checkAccountLockout` reports not
locked together with `max 0 (5 - failures)` remaining attempts, where
`failures` is the pair's failed-attempt count in the window. -/
theorem below_threshold_reports_remaining (rows : List LoginAttempt)
    (email ipAddress : String) (now : Int)
    (h : closedWindowFailureCount rows email ipAddress now < 5) :
    checkAccountLockout false rows email ipAddress now =
      { locked := false,
        remainingAttempts :=
          some (max 0 (5 - closedWindowFailureCount rows email ipAddress now)) } := by
  have hmono : strictWindowFailureCount rows email ipAddress now ≤
      closedWindowFailureCount rows email ipAddress now := by
    refine List.countP_mono_left ?_
    intro a _ ha
    have h1 := of_decide_eq_true ha
    refine decide_eq_true ?_
    obtain ⟨he, hi, hs, ht⟩ := h1
    exact ⟨he, hi, hs, le_of_lt ht⟩
  have hnl : is_account_locked rows email ipAddress now = false := by
    rw [is_account_locked_eq_count]
    exact decide_eq_false (by omega)
  simp only [checkAccountLockout, hnl, Bool.false_eq_true, if_false]
  rw [recentFailedForPair_length]

/-- Witness for C7: three recent failures leave two remaining attempts. -/
theorem below_threshold_reports_remaining_witness :
    closedWindowFailureCount cStore3.login_attempts
      "alice@example.com" "1.2.3.4" 60000 < 5 ∧
    checkAccountLockout false cStore3.login_attempts
      "alice@example.com" "1.2.3.4" 60000 =
      { locked := false,
        remainingAttempts := some (max 0 (5 -
          closedWindowFailureCount cStore3.login_attempts
            "alice@example.com" "1.2.3.4" 60000)) } :=
  ⟨by decide, below_threshold_reports_remaining cStore3.login_attempts
    "alice@example.com" "1.2.3.4" 60000 (by decide)⟩

/-- C5: `logLoginAttempt` resolves normally for every behavior of the
underlying store — also when the store fails every write — so the login
flow is never interrupted by ledger unavailability. -/
theorem logLoginAttempt_never_throws (storeFails : Bool)
    (rows : List LoginAttempt) (d : LoginAttemptData) (now : Int) :
    ∃ result, logLoginAttempt storeFails rows d now = Except.ok result := by
  cases storeFails <;> simp [logLoginAttempt, insertLoginAttempt]

/-- C4 (code bug): on a store whose pair has three failures inside the
window, the head-count query does report a count of 3, but
`getFailedAttemptsCount` reads the absent `data` rows of the HEAD
response instead of its `count` field and returns 0. -/
theorem getFailedAttemptsCount_drops_count :
    closedWindowFailureCount cStore3.login_attempts
      "alice@example.com" "1.2.3.4" 60000 = 3 ∧
    (selectFailedCountHead cStore3.login_attempts
      "alice@example.com" "1.2.3.4" 15 60000).count = 3 ∧
    getFailedAttemptsCount cStore3.login_attempts
      "alice@example.com" "1.2.3.4" 15 60000 = 0 := by
  decide

/-- C8: `detectSuspiciousActivity` reports suspicious with the
failed-attempts reason when the subject has at least 5 login-failure
events in the trailing 15 minutes; otherwise suspicious with the
multiple-IP reason when the subject's events of the trailing 60 minutes
span more than 3 distinct IPs; otherwise not suspicious. -/
theorem detectSuspiciousActivity_cases (events : List SecurityEvent)
    (userId : String) (now : Int) :
    detectSuspiciousActivity events userId now =
      (if 5 ≤ failureEventCount events userId now then
        { suspicious := true, reason := some "Multiple failed login attempts" }
      else if 3 < distinctRecentIpCount events userId now then
        { suspicious := true, reason := some "Multiple IP addresses in short time" }
      else { suspicious := false }) := by
  have hp1 : (fun e : SecurityEvent =>
      e.user_id == some userId &&
      e.event_type == SecurityEventType.login_failure &&
      decide (now - WINDOW_MS ≤ e.created_at)) =
      (fun e => decide (FailureEventFor userId now e)) := by
    funext e
    rw [Bool.eq_iff_iff]
    simp [FailureEventFor, and_assoc]
  have hp2 : (fun e : SecurityEvent =>
      e.user_id == some userId && decide (now - HOUR_MS ≤ e.created_at)) =
      (fun e => decide (RecentEventFor userId now e)) := by
    funext e
    rw [Bool.eq_iff_iff]
    simp [RecentEventFor]
  simp only [detectSuspiciousActivity, hp1, hp2, failureEventCount,
    distinctRecentIpCount, List.countP_eq_length_filter,
    List.card_toFinset, ge_iff_le, gt_iff_lt]

/-- C9: `checkSuspiciousIP` flags an origin IP exactly when it has
failed attempts against more than 10 distinct identities within the
trailing 60 minutes, and it leaves the store unchanged. -/
theorem checkSuspiciousIP_fanout_iff (s : Store) (ipAddress : String)
    (now : Int) :
    ((checkSuspiciousIP s ipAddress now).1 = true ↔
      10 < distinctTargetedIdentities s.login_attempts ipAddress now) ∧
    (checkSuspiciousIP s ipAddress now).2 = s := by
  have hp : (fun a : LoginAttempt =>
      a.ip_address == ipAddress && a.successful == false &&
      decide (now - HOUR_MS ≤ a.attempted_at)) =
      (fun a => decide (FailedFromIpInHour ipAddress now a)) := by
    funext a
    rw [Bool.eq_iff_iff]
    simp [FailedFromIpInHour, and_assoc]
  constructor
  · simp only [checkSuspiciousIP, hp, distinctTargetedIdentities,
      List.card_toFinset, gt_iff_lt, decide_eq_true_iff]
  · rfl

theorem parse_ok (req : LoginRequest) (he : req.email ≠ "")
    (hp : req.password ≠ "") :
    (req.email == "" || req.password == "") = false := by
  simp [he, hp]

theorem post_success_shape (env : RouteEnv) (req : LoginRequest)
    (now : Int) (s : Store)
    (hr : env.rateDenied = false) (he : req.email ≠ "") (hp : req.password ≠ "")
    (hl : (route_checkAccountLockout env.rpcError s.login_attempts
      req.email req.ipAddress now).locked = false)
    (u : String) (hu : env.provider = ProviderResult.ok u) :
    POST env req now s =
      ({ status := 200, success := true, userId := some u },
       { login_attempts := s.login_attempts ++
           [{ email := req.email, ip_address := req.ipAddress,
              user_agent := req.userAgent, successful := true,
              attempted_at := now }],
         security_events := s.security_events ++
           [{ user_id := some u, event_type := SecurityEventType.login_success,
              metadata := [("method", "password"), ("mfa_used", "false")],
              ip_address := req.ipAddress, user_agent := req.userAgent,
              created_at := now }] }) := by
  simp [POST, hr, parse_ok req he hp, hl, hu,
    route_logLoginAttempt, logSecurityEvent]

theorem post_failure_shape (env : RouteEnv) (req : LoginRequest)
    (now : Int) (s : Store)
    (hr : env.rateDenied = false) (he : req.email ≠ "") (hp : req.password ≠ "")
    (hl : (route_checkAccountLockout env.rpcError s.login_attempts
      req.email req.ipAddress now).locked = false)
    (m : String) (hm : env.provider = ProviderResult.authError m) :
    POST env req now s =
      ({ status := 401, error := some "Invalid email or password" },
       { login_attempts := s.login_attempts ++
           [{ email := req.email, ip_address := req.ipAddress,
              user_agent := req.userAgent, successful := false,
              attempted_at := now }],
         security_events := s.security_events ++
           [{ user_id := none, event_type := SecurityEventType.login_failure,
              metadata := [("email", req.email), ("reason", m)],
              ip_address := req.ipAddress, user_agent := req.userAgent,
              created_at := now }] }) := by
  simp [POST, hr, parse_ok req he hp, hl, hm,
    route_logLoginAttempt, logSecurityEvent]

/-- C2: a request rejected by the lockout check gets a 429 response,
an `account_locked` SecurityEvent with null subject, and no
LoginAttempt row. -/
theorem locked_rejects_logs_event_writes_no_attempt (env : RouteEnv)
    (req : LoginRequest) (now : Int) (s : Store)
    (hr : env.rateDenied = false) (he : req.email ≠ "") (hp : req.password ≠ "")
    (hl : (route_checkAccountLockout env.rpcError s.login_attempts
      req.email req.ipAddress now).locked = true) :
    (POST env req now s).1.status = 429 ∧
    (POST env req now s).2.login_attempts = s.login_attempts ∧
    (POST env req now s).2.security_events = s.security_events ++
      [{ user_id := none, event_type := SecurityEventType.account_locked,
         metadata := [("email", req.email), ("reason", "Too many failed attempts")],
         ip_address := req.ipAddress, user_agent := req.userAgent,
         created_at := now }] := by
  simp [POST, hr, parse_ok req he hp, hl, logSecurityEvent]

/-- Witness for C2: five recent failures for the pair lock the request
out; the event ledger gains the `account_locked` row and the attempt
ledger is untouched. -/
theorem locked_rejects_witness :
    cEnvOk.rateDenied = false ∧ cReq.email ≠ "" ∧ cReq.password ≠ "" ∧
    (route_checkAccountLockout cEnvOk.rpcError cStore5.login_attempts
      cReq.email cReq.ipAddress 60000).locked = true ∧
    ((POST cEnvOk cReq 60000 cStore5).1.status = 429 ∧
     (POST cEnvOk cReq 60000 cStore5).2.login_attempts =
       cStore5.login_attempts ∧
     (POST cEnvOk cReq 60000 cStore5).2.security_events =
       cStore5.security_events ++
       [{ user_id := none, event_type := SecurityEventType.account_locked,
          metadata := [("email", cReq.email), ("reason", "Too many failed attempts")],
          ip_address := cReq.ipAddress, user_agent := cReq.userAgent,
          created_at := 60000 }]) :=
  ⟨by decide, by decide, by decide, by decide,
   locked_rejects_logs_event_writes_no_attempt cEnvOk cReq 60000 cStore5
     (by decide) (by decide) (by decide) (by decide)⟩

/-- C6: whenever the provider returns a verdict, exactly one
LoginAttempt row is appended, its `successful` field is the provider's
verdict, and the row is in place in the state paired with the returned
response on the success path (200) and on the failure path (401). -/
theorem provider_verdict_always_recorded (env : RouteEnv)
    (req : LoginRequest) (now : Int) (s : Store)
    (hr : env.rateDenied = false) (he : req.email ≠ "") (hp : req.password ≠ "")
    (hl : (route_checkAccountLockout env.rpcError s.login_attempts
      req.email req.ipAddress now).locked = false)
    (hv : env.provider ≠ ProviderResult.thrown) :
    (POST env req now s).2.login_attempts = s.login_attempts ++
      [{ email := req.email, ip_address := req.ipAddress,
         user_agent := req.userAgent,
         successful := providerSucceeded env.provider,
         attempted_at := now }] ∧
    (POST env req now s).1.status =
      (if providerSucceeded env.provider = true then 200 else 401) := by
  cases hprov : env.provider with
  | ok u =>
      rw [post_success_shape env req now s hr he hp hl u hprov]
      simp [providerSucceeded]
  | authError m =>
      rw [post_failure_shape env req now s hr he hp hl m hprov]
      simp [providerSucceeded]
  | thrown => exact absurd hprov hv

/-- Witness for C6: an accepted credential appends one successful row
and the route answers 200. -/
theorem provider_verdict_recorded_witness :
    cEnvOk.rateDenied = false ∧ cReq.email ≠ "" ∧ cReq.password ≠ "" ∧
    (route_checkAccountLockout cEnvOk.rpcError cStore3.login_attempts
      cReq.email cReq.ipAddress 60000).locked = false ∧
    cEnvOk.provider ≠ ProviderResult.thrown ∧
    ((POST cEnvOk cReq 60000 cStore3).2.login_attempts =
       cStore3.login_attempts ++
       [{ email := cReq.email, ip_address := cReq.ipAddress,
          user_agent := cReq.userAgent,
          successful := providerSucceeded cEnvOk.provider,
          attempted_at := 60000 }] ∧
     (POST cEnvOk cReq 60000 cStore3).1.status =
       (if providerSucceeded cEnvOk.provider = true then 200 else 401)) :=
  ⟨by decide, by decide, by decide, by decide, by decide,
   provider_verdict_always_recorded cEnvOk cReq 60000 cStore3
     (by decide) (by decide) (by decide) (by decide) (by decide)⟩

/-- C10: when the `is_account_locked` RPC reports a storage error, the
route's lockout check fails closed — it reports locked with the fixed
message and the request is rejected with 429. -/
theorem rpc_error_fails_closed (env : RouteEnv) (req : LoginRequest)
    (now : Int) (s : Store)
    (hr : env.rateDenied = false) (he : req.email ≠ "") (hp : req.password ≠ "")
    (herr : env.rpcError = true) :
    route_checkAccountLockout env.rpcError s.login_attempts
      req.email req.ipAddress now =
      { locked := true, message := some routeLockoutMessage } ∧
    (POST env req now s).1.status = 429 ∧
    (POST env req now s).1.error = some routeLockoutMessage := by
  have hlock : route_checkAccountLockout env.rpcError s.login_attempts
      req.email req.ipAddress now =
      { locked := true, message := some routeLockoutMessage } := by
    simp [route_checkAccountLockout, herr]
  refine ⟨hlock, ?_, ?_⟩ <;>
    simp [POST, hr, parse_ok req he hp, hlock, logSecurityEvent]

/-- Witness for C10: an erroring RPC yields a 429 with the fixed
message even over an empty attempts ledger. -/
theorem rpc_error_fails_closed_witness :
    cEnvRpcErr.rateDenied = false ∧ cReq.email ≠ "" ∧ cReq.password ≠ "" ∧
    cEnvRpcErr.rpcError = true ∧
    (route_checkAccountLockout cEnvRpcErr.rpcError
      ([] : List LoginAttempt) cReq.email cReq.ipAddress 60000 =
      { locked := true, message := some routeLockoutMessage } ∧
     (POST cEnvRpcErr cReq 60000
       { login_attempts := [], security_events := [] }).1.status = 429 ∧
     (POST cEnvRpcErr cReq 60000
       { login_attempts := [], security_events := [] }).1.error =
       some routeLockoutMessage) :=
  ⟨by decide, by decide, by decide, by decide,
   rpc_error_fails_closed cEnvRpcErr cReq 60000
     { login_attempts := [], security_events := [] }
     (by decide) (by decide) (by decide) (by decide)⟩

/-- C3 counterexample: the route's success path for a pair with three
windowed failures answers 200 but leaves the pair's failure count at 3,
not 0 — `clearFailedAttempts` is never invoked by the orchestrator. -/
theorem success_does_not_reset_failures_cex :
    (POST cEnvOk cReq 60000 cStore3).1.status = 200 ∧
    closedWindowFailureCount
      (POST cEnvOk cReq 60000 cStore3).2.login_attempts
      "alice@example.com" "1.2.3.4" 60000 = 3 := by
  decide

theorem countP_clear_eq_zero (rows : List LoginAttempt)
    (email ipAddress : String) (p : LoginAttempt → Bool)
    (himp : ∀ a, p a = true →
      a.email = email ∧ a.ip_address = ipAddress ∧ a.successful = false) :
    (clearFailedAttempts rows email ipAddress).countP p = 0 := by
  rw [List.countP_eq_zero]
  intro a ha hpa
  rw [clearFailedAttempts, List.mem_filter] at ha
  obtain ⟨h1, h2, h3⟩ := himp a hpa
  simp [h1, h2, h3] at ha

/-- C3 (amended): `clearFailedAttempts` resets the pair's windowed
failure count to 0, and 4 new failures after a clear do not trigger
lockout; the route's success path, however, does not invoke
`clearFailedAttempts` — it leaves the pair's windowed failure count
unchanged rather than resetting it to 0. -/
theorem clear_resets_but_success_path_does_not (rows : List LoginAttempt)
    (email ipAddress : String) (now : Int) (newRows : List LoginAttempt)
    (hlen : newRows.length ≤ 4)
    (env : RouteEnv) (req : LoginRequest) (s : Store)
    (hr : env.rateDenied = false) (he : req.email ≠ "") (hp : req.password ≠ "")
    (hl : (route_checkAccountLockout env.rpcError s.login_attempts
      req.email req.ipAddress now).locked = false)
    (u : String) (hu : env.provider = ProviderResult.ok u) :
    closedWindowFailureCount (clearFailedAttempts rows email ipAddress)
      email ipAddress now = 0 ∧
    is_account_locked (clearFailedAttempts rows email ipAddress ++ newRows)
      email ipAddress now = false ∧
    closedWindowFailureCount (POST env req now s).2.login_attempts
      req.email req.ipAddress now =
      closedWindowFailureCount s.login_attempts req.email req.ipAddress now := by
  refine ⟨?_, ?_, ?_⟩
  · refine countP_clear_eq_zero rows email ipAddress _ ?_
    intro a hpa
    obtain ⟨h1, h2, h3, -⟩ := of_decide_eq_true hpa
    exact ⟨h1, h2, h3⟩
  · rw [is_account_locked_eq_count]
    have hzero : strictWindowFailureCount
        (clearFailedAttempts rows email ipAddress) email ipAddress now = 0 := by
      refine countP_clear_eq_zero rows email ipAddress _ ?_
      intro a hpa
      obtain ⟨h1, h2, h3, -⟩ := of_decide_eq_true hpa
      exact ⟨h1, h2, h3⟩
    have hle : (newRows.countP
        (fun a => decide (FailedInStrictWindow email ipAddress now a))) ≤
        newRows.length := List.countP_le_length _
    have happ : strictWindowFailureCount
        (clearFailedAttempts rows email ipAddress ++ newRows)
        email ipAddress now =
        strictWindowFailureCount (clearFailedAttempts rows email ipAddress)
          email ipAddress now +
        newRows.countP
          (fun a => decide (FailedInStrictWindow email ipAddress now a)) := by
      rw [strictWindowFailureCount, List.countP_append]
      rfl
    refine decide_eq_false ?_
    omega
  · rw [post_success_shape env req now s hr he hp hl u hu,
      closedWindowFailureCount, List.countP_append]
    have hone : List.countP
        (fun a => decide (FailedInClosedWindow req.email req.ipAddress now a))
        [{ email := req.email, ip_address := req.ipAddress,
           user_agent := req.userAgent, successful := true,
           attempted_at := now }] = 0 := by
      simp [List.countP_cons, FailedInClosedWindow]
    rw [hone]
    rfl

/-- Witness for the amended C3: clearing the three failures of the
concrete pair and adding four fresh ones does not lock; the success
path over the same store keeps the count at its prior value. -/
theorem clear_resets_witness :
    cNew4.length ≤ 4 ∧
    cEnvOk.rateDenied = false ∧ cReq.email ≠ "" ∧ cReq.password ≠ "" ∧
    (route_checkAccountLockout cEnvOk.rpcError cStore3.login_attempts
      cReq.email cReq.ipAddress 60000).locked = false ∧
    cEnvOk.provider = ProviderResult.ok "user-1" ∧
    (closedWindowFailureCount
      (clearFailedAttempts cStore3.login_attempts "alice@example.com" "1.2.3.4")
      "alice@example.com" "1.2.3.4" 60000 = 0 ∧
     is_account_locked
      (clearFailedAttempts cStore3.login_attempts "alice@example.com" "1.2.3.4"
        ++ cNew4) "alice@example.com" "1.2.3.4" 60000 = false ∧
     closedWindowFailureCount (POST cEnvOk cReq 60000 cStore3).2.login_attempts
       cReq.email cReq.ipAddress 60000 =
       closedWindowFailureCount cStore3.login_attempts
         cReq.email cReq.ipAddress 60000) :=
  ⟨by decide, by decide, by decide, by decide, by decide, by decide,
   clear_resets_but_success_path_does_not cStore3.login_attempts
     "alice@example.com" "1.2.3.4" 60000 cNew4 (by decide)
     cEnvOk cReq cStore3 (by decide) (by decide) (by decide) (by decide)
     "user-1" (by decide)⟩

end SecureSaaS
